import Mathlib

/-!
Verification of the Reto-Movilidad-Urbana repository.

The repository ships the WebGL visualization client (two variants of
main.js under src/Visualizacion) together with a README describing the
Python/Mesa simulation server, which is not part of the repository.  The
client code is embedded below faithfully: the two main.js variants become
the namespaces ClientV1 and ClientV2.  Numeric data the JavaScript holds
in floating point is modelled over the rationals; this loses nothing for
the properties proved here, which never depend on rounding.  The
simulation engine, absent from the sources, is modelled from the spec in
the Engine namespace, with each definition's doc comment recording that.
-/

namespace ClientV1

/-- A parsed map cell, as built by the object literal in parseMap
(main.js variant 1, lines 469-474): grid coordinates, the raw map
character, and the cell type looked up in the map dictionary.  The
dictionary values are the cell-kind names; a symbol absent from the
dictionary yields a null type, modelled as none.  (The JavaScript
expression mapDictionary[char] || null also nulls a present-but-falsy
entry; dictionary values are cell-kind names, hence truthy, so lookup
failure is the only source of null.) -/
structure Cell where
  x : ℕ
  y : ℕ
  char : Char
  type : Option String
deriving DecidableEq, Repr

/-- parseMap (main.js variant 1, lines 461-479): iterates over the map
lines by row index y and over each line's characters by column index x,
pushing one cell per character; the grid is the list of rows. -/
def parseMap (mapData : List String) (mapDictionary : Char → Option String) :
    List (List Cell) :=
  mapData.enum.map fun yl =>
    yl.2.toList.enum.map fun xc =>
      { x := xc.1, y := yl.1, char := xc.2, type := mapDictionary xc.2 }

/-- Helper for splitLines: accumulates the current line (reversed) while
walking the characters. -/
def splitLinesAux : List Char → List Char → List String
  | [], acc => [String.mk acc.reverse]
  | c :: cs, acc =>
    if c = '\n' then String.mk acc.reverse :: splitLinesAux cs []
    else splitLinesAux cs (c :: acc)

/-- The JavaScript expression text.split of a newline separator: the
pieces of the string between newline characters, in order. -/
def splitLines (s : String) : List String :=
  splitLinesAux s.toList []

/-- The JavaScript String.prototype.trim: strip whitespace from both
ends. -/
def jsTrim (s : String) : String :=
  String.mk
    (((s.toList.dropWhile Char.isWhitespace).reverse.dropWhile
      Char.isWhitespace).reverse)

/-- loadMapAndDictionary (main.js variant 1, lines 441-458): the two
fetches are modelled by Option-valued inputs (none = failed fetch).  A
failed fetch raises the corresponding descriptive error; otherwise the
map text is trimmed and split into lines, and the dictionary is returned
as a lookup function. -/
def loadMapAndDictionary (mapFetch : Option String)
    (dictFetch : Option (Char → Option String)) :
    Except String (List String × (Char → Option String)) :=
  match mapFetch with
  | none => .error "No se pudo cargar el archivo del mapa"
  | some mapText =>
    match dictFetch with
    | none => .error "No se pudo cargar el diccionario del mapa"
    | some mapDictionary => .ok (splitLines (jsTrim mapText), mapDictionary)

/-- The whole static-map construction pipeline of main.js variant 1
(main, lines 95-98): loadMapAndDictionary followed by parseMap. -/
def buildGrid (mapFetch : Option String)
    (dictFetch : Option (Char → Option String)) :
    Except String (List (List Cell)) :=
  (loadMapAndDictionary mapFetch dictFetch).map fun md => parseMap md.1 md.2

/-- degToRad (main.js variant 1, lines 436-438): degrees times pi over
180.  Math.PI is abstracted as the parameter pi; no property proved here
depends on its value. -/
def degToRad (pi : ℚ) (degrees : ℚ) : ℚ :=
  degrees * pi / 180

/-- getRotationForDirection (main.js variant 1, lines 552-566): a switch
on the direction character with a catch-all default of 0. -/
def getRotationForDirection (pi : ℚ) (char : Char) : ℚ :=
  match char with
  | '>' => degToRad pi 0
  | '^' => degToRad pi 90
  | '<' => degToRad pi 180
  | 'v' => degToRad pi 270
  | 'V' => degToRad pi 270
  | _ => 0

/-- One entry of the /getAgents response consumed by getAgents (main.js
variant 1, lines 289-296): the fields the client reads from each element
of data.positions. -/
structure AgentData where
  id : ℕ
  x : ℚ
  y : ℚ
  z : ℚ
  rotation : ℚ
deriving DecidableEq, Repr

/-- A rendered agent as built by getAgents (main.js variant 1): id,
position [x, y, z] and rotation.  The model field is the constant
models.car and is omitted. -/
structure Agent where
  id : ℕ
  position : ℚ × ℚ × ℚ
  rotation : ℚ
deriving DecidableEq, Repr

/-- getAgents (main.js variant 1, lines 284-301): maps every entry of
data.positions to an agent object. -/
def getAgents (positions : List AgentData) : List Agent :=
  positions.map fun a =>
    { id := a.id, position := (a.x, a.y, a.z), rotation := a.rotation }

/-- One entry of the /getTrafficLights response consumed by
getTrafficLights (main.js variant 1, lines 309-316): the fields the
client reads from each element of data.positions. -/
structure TLData where
  id : ℕ
  x : ℚ
  y : ℚ
  z : ℚ
  state : String
deriving DecidableEq, Repr

/-- A rendered traffic light as built by getTrafficLights (main.js
variant 1): id, position [x, y, z] and state.  The model field is the
constant models.trafficLight and is omitted. -/
structure TrafficLight where
  id : ℕ
  position : ℚ × ℚ × ℚ
  state : String
deriving DecidableEq, Repr

/-- getTrafficLights (main.js variant 1, lines 304-321): maps every
entry of data.positions to a traffic-light object. -/
def getTrafficLights (positions : List TLData) : List TrafficLight :=
  positions.map fun t =>
    { id := t.id, position := (t.x, t.y, t.z), state := t.state }

end ClientV1

namespace ClientV2

/-- One entry of the /getAgents response consumed by getAgents (main.js
variant 2, lines 763-843): the fields the client reads from each element
of data.agents.  The direction field is the [dx, dy] pair the Car branch
destructures (absent or null modelled as none); the state field is kept
as received. -/
structure AgentData where
  id : ℕ
  type : String
  x : ℚ
  y : ℚ
  z : ℚ
  direction : Option (ℤ × ℤ)
  state : Option String
deriving DecidableEq, Repr

/-- The cube models created by loadModels (main.js variant 2, lines
676-700), identified by name; the geometry itself is irrelevant here. -/
inductive ModelKind
  | car
  | trafficLight
  | building
  | street
  | destination
  | ground
deriving DecidableEq, Repr

/-- models.car.scale (main.js variant 2, line 679). -/
def carScale : ℚ × ℚ × ℚ := (4/5, 1/2, 3/2)

/-- models.trafficLight.scale (main.js variant 2, line 683). -/
def trafficLightScale : ℚ × ℚ × ℚ := (3/10, 3/10, 3/10)

/-- models.building.scale (main.js variant 2, line 687). -/
def buildingScale : ℚ × ℚ × ℚ := (1, 3, 1)

/-- models.street.scale (main.js variant 2, line 691). -/
def streetScale : ℚ × ℚ × ℚ := (1, 1/10, 1)

/-- models.destination.scale (main.js variant 2, line 695). -/
def destinationScale : ℚ × ℚ × ℚ := (1/2, 1/2, 1/2)

/-- A rendered agent as built by getAgents (main.js variant 2, lines
825-834). -/
structure Agent where
  id : ℕ
  type : String
  position : ℚ × ℚ × ℚ
  rotation : ℚ
  model : ModelKind
  scale : ℚ × ℚ × ℚ
  state : Option String
  direction : Option (ℤ × ℤ)
deriving DecidableEq, Repr

/-- The Car rotation computation of getAgents (main.js variant 2, lines
783-795): an if/else chain over the [dx, dy] direction pair, defaulting
to 0. -/
def carRotation (direction : Option (ℤ × ℤ)) : ℚ :=
  match direction with
  | none => 0
  | some d =>
    if d.1 = 1 ∧ d.2 = 0 then -90
    else if d.1 = -1 ∧ d.2 = 0 then 90
    else if d.1 = 0 ∧ d.2 = 1 then 0
    else if d.1 = 0 ∧ d.2 = -1 then 180
    else 0

/-- The per-entry body of getAgents (main.js variant 2, lines 773-835):
the switch on agentData.type chooses model, scale and rotation, the Y
position is lifted by half the model height for Obstacle, Destination
and Road, and an unknown type yields null (after a console warning). -/
def mkAgent (a : AgentData) : Option Agent :=
  if a.type = "Car" then
    some { id := a.id, type := a.type, position := (a.x, a.y, a.z),
           rotation := carRotation a.direction, model := .car,
           scale := carScale, state := a.state, direction := a.direction }
  else if a.type = "Obstacle" then
    some { id := a.id, type := a.type,
           position := (a.x, a.y + buildingScale.2.1 / 2, a.z),
           rotation := 0, model := .building, scale := buildingScale,
           state := a.state, direction := a.direction }
  else if a.type = "Road" then
    some { id := a.id, type := a.type,
           position := (a.x, a.y + streetScale.2.1 / 2, a.z),
           rotation := 0, model := .street, scale := streetScale,
           state := a.state, direction := a.direction }
  else if a.type = "Destination" then
    some { id := a.id, type := a.type,
           position := (a.x, a.y + destinationScale.2.1 / 2, a.z),
           rotation := 0, model := .destination, scale := destinationScale,
           state := a.state, direction := a.direction }
  else none

/-- getAgents (main.js variant 2, lines 763-843): data.agents is mapped
through the per-entry body and the null results are filtered out. -/
def getAgents (l : List AgentData) : List Agent :=
  (l.map mkAgent).filterMap id

/-- 4x4 world matrices of twgl.m4, over the rationals. -/
abbrev M4 := Matrix (Fin 4) (Fin 4) ℚ

/-- The twgl.m4 translation matrix for a vector [x, y, z] (column-vector
convention: the translation sits in the last column). -/
def translationMatrix (v : ℚ × ℚ × ℚ) : M4 :=
  Matrix.of fun i j =>
    if (i : ℕ) = (j : ℕ) then 1
    else if (j : ℕ) = 3 then
      if (i : ℕ) = 0 then v.1
      else if (i : ℕ) = 1 then v.2.1
      else if (i : ℕ) = 2 then v.2.2
      else 0
    else 0

/-- twgl.m4.translate(m, v): post-multiplication by the translation
matrix, i.e. a translation in the object's local frame. -/
def m4translate (m : M4) (v : ℚ × ℚ × ℚ) : M4 :=
  m * translationMatrix v

/-- The output of drawTrafficLight relevant to its contract: the color
uniform it sets and the world matrices of the cubes it draws, in order. -/
structure TrafficLightDraw where
  color : List ℚ
  matrices : List M4

/-- drawTrafficLight (main.js variant 2, lines 1011-1058): the color is
switched on object.state with a grey default ([0.8, 0.8, 0.8, 1]); two
cubes are drawn, the first at the base world matrix and the second at
the base matrix translated by [0, 0.5, 0]. -/
def drawTrafficLight (state : String) (worldMatrixBase : M4) :
    TrafficLightDraw :=
  { color :=
      if state = "green" then [0, 1, 0, 1]
      else if state = "yellow" then [1, 1, 0, 1]
      else if state = "red" then [1, 0, 0, 1]
      else [4/5, 4/5, 4/5, 1],
    matrices := [worldMatrixBase, m4translate worldMatrixBase (0, 1/2, 0)] }

/-- One entry of the /getTrafficLights response consumed by
getTrafficLights (main.js variant 2, lines 851-880): the fields the
client reads from each element of data.positions. -/
structure TLData where
  id : ℕ
  x : ℚ
  y : ℚ
  z : ℚ
  state : String
deriving DecidableEq, Repr

/-- A rendered traffic light as built by getTrafficLights (main.js
variant 2, lines 872-880).  The model field is the constant
models.trafficLight and is omitted. -/
structure TrafficLight where
  id : ℕ
  type : String
  position : ℚ × ℚ × ℚ
  state : String
  scale : ℚ × ℚ × ℚ
  rotation : ℚ
deriving DecidableEq, Repr

/-- The JavaScript strict-equality test between an agent's direction
value and a string literal (main.js variant 2, lines 721-724).  In this
client the direction field of an agent built by getAgents holds the
[dx, dy] coordinate pair of the response, or null; strict equality
between such a value and a string is false for every operand. -/
def jsStrictEqString (d : Option (ℤ × ℤ)) (s : String) : Bool :=
  false

/-- getStreetDirectionAtPosition (main.js variant 2, lines 716-730):
walk the agents in order; the first Road agent at world position
(x, _, z) whose direction is strictly equal to the string horizontal or
to the string vertical decides the street direction; if no agent
decides, the default vertical is returned. -/
def getStreetDirectionAtPosition (agents : List Agent) (x z : ℚ) : String :=
  match agents.find? (fun a =>
      a.type == "Road" && a.position.1 == x && a.position.2.2 == z &&
      (jsStrictEqString a.direction "horizontal" ||
       jsStrictEqString a.direction "vertical")) with
  | some a =>
    if jsStrictEqString a.direction "horizontal" then "horizontal"
    else "vertical"
  | none => "vertical"

/-- The per-entry body of getTrafficLights (main.js variant 2, lines
851-880): the position read from (x, y, z) is offset by 0.4 in z for a
horizontal street (rotating the light by 90 degrees) and by 0.4 in x
for a vertical street; id and state are carried over unchanged. -/
def mkTrafficLight (agents : List Agent) (t : TLData) : TrafficLight :=
  if getStreetDirectionAtPosition agents t.x t.z = "horizontal" then
    { id := t.id, type := "TrafficLight", position := (t.x, t.y, t.z + 2/5),
      state := t.state, scale := trafficLightScale, rotation := 90 }
  else if getStreetDirectionAtPosition agents t.x t.z = "vertical" then
    { id := t.id, type := "TrafficLight", position := (t.x + 2/5, t.y, t.z),
      state := t.state, scale := trafficLightScale, rotation := 0 }
  else
    { id := t.id, type := "TrafficLight", position := (t.x, t.y, t.z),
      state := t.state, scale := trafficLightScale, rotation := 0 }

/-- getTrafficLights (main.js variant 2, lines 846-888): maps every
entry of data.positions through the per-entry body, which consults the
previously fetched agents to decide the street direction. -/
def getTrafficLights (agents : List Agent) (positions : List TLData) :
    List TrafficLight :=
  positions.map (mkTrafficLight agents)

end ClientV2

/-- The per-frame tail of drawScene (both main.js variants, lines
369-376 and 944-952): the frame counter is incremented, and the
simulation update (tick advance plus re-fetch of agents and traffic
lights) is requested exactly if the incremented counter is divisible by
60.  Returns the new counter and whether the update was requested. -/
def drawSceneFrame (frameCount : ℕ) : ℕ × Bool :=
  (frameCount + 1, (frameCount + 1) % 60 == 0)

/-- The rendering loop, counter initialized to 0 (main.js, frameCount
declaration): after m frames, returns the counter value together with
the list of counter values at which a simulation update was requested. -/
def runFrames : ℕ → ℕ × List ℕ
  | 0 => (0, [])
  | m + 1 =>
    let prev := runFrames m
    let fr := drawSceneFrame prev.1
    (fr.1, if fr.2 then prev.2 ++ [fr.1] else prev.2)

namespace Engine

/-- Modelled from the spec: the Vehicle of the data model (§3), as far
as occupancy is concerned — identity, current cell and destination cell.
The simulation engine (the Python Mesa server the README describes) is
not part of the repository. -/
structure SimVehicle where
  id : ℕ
  pos : ℤ × ℤ
  dest : ℤ × ℤ
deriving DecidableEq, Repr

/-- Modelled from the spec: a traffic-light phase (§3). -/
inductive Phase
  | green
  | yellow
  | red
deriving DecidableEq, Repr

/-- Modelled from the spec: the Green to Yellow to Red to Green cycle
(§4.3). -/
def Phase.next : Phase → Phase
  | .green => .yellow
  | .yellow => .red
  | .red => .green

/-- Modelled from the spec: a TrafficLight with its phase timer (§3). -/
structure SimLight where
  phase : Phase
  timer : ℕ
deriving DecidableEq, Repr

/-- Modelled from the spec: TrafficLightController.Step for one light
(§4.3) — decrement the timer, and on reaching zero transition to the
next phase and reset the timer to that phase's duration. -/
def lightStep (durations : Phase → ℕ) (l : SimLight) : SimLight :=
  if l.timer = 0 then { phase := l.phase.next, timer := durations l.phase.next }
  else { phase := l.phase, timer := l.timer - 1 }

/-- Modelled from the spec: the static configuration a run is
initialized from — spawn cells with their destinations, the population
cap, the traffic lights at map load, and the per-phase durations
(§4.3, §4.5 step 5). -/
structure SimConfig where
  spawns : List ((ℤ × ℤ) × (ℤ × ℤ))
  cap : ℕ
  lights : List SimLight
  durations : Phase → ℕ

/-- Modelled from the spec: the world state owned by
SimulationScheduler (§9) — the live vehicles, the next spawn id, and the
lights. -/
structure World where
  vehicles : List SimVehicle
  nextId : ℕ
  lights : List SimLight

/-- Modelled from the spec: the acceptance condition of conflict
resolution (§4.5 step 3) for a vehicle v proposing to move to cell c,
relative to a set A of already-accepted vehicle ids — v has the lowest
spawn id among the vehicles targeting c, and every vehicle currently
holding c has an accepted (vacating) move. -/
def acceptOK (vs : List SimVehicle) (prop : SimVehicle → Option (ℤ × ℤ))
    (A : List ℕ) (v : SimVehicle) (c : ℤ × ℤ) : Prop :=
  (∀ w ∈ vs, prop w = some c → v.id ≤ w.id) ∧ ∀ w ∈ vs, w.pos = c → w.id ∈ A

instance (vs : List SimVehicle) (prop : SimVehicle → Option (ℤ × ℤ))
    (A : List ℕ) (v : SimVehicle) (c : ℤ × ℤ) :
    Decidable (acceptOK vs prop A v c) := by
  unfold acceptOK
  exact inferInstance

/-- Modelled from the spec: one resolution pass (§4.5 step 3) — collect
the ids of the vehicles whose proposal is acceptable given the
previously accepted set. -/
def acceptOne (vs : List SimVehicle) (prop : SimVehicle → Option (ℤ × ℤ))
    (A : List ℕ) : List ℕ :=
  vs.filterMap fun v =>
    match prop v with
    | none => none
    | some c => if acceptOK vs prop A v c then some v.id else none

/-- Modelled from the spec: iterated resolution passes starting from the
empty accepted set, so that vacating chains are confirmed link by link
while unresolved cycles keep every participant waiting (§4.5 step 3). -/
def acceptIter (vs : List SimVehicle) (prop : SimVehicle → Option (ℤ × ℤ)) :
    ℕ → List ℕ
  | 0 => []
  | k + 1 => acceptOne vs prop (acceptIter vs prop k)

/-- Modelled from the spec: the accepted moves of a tick — enough
resolution passes to confirm any vacating chain among the vehicles. -/
def accepted (vs : List SimVehicle) (prop : SimVehicle → Option (ℤ × ℤ)) :
    List ℕ :=
  acceptIter vs prop (vs.length + 1)

/-- Modelled from the spec: the commit phase (§4.5 step 4) — every
vehicle whose move was accepted takes its target cell, every other
vehicle stays. -/
def commitMoves (vs : List SimVehicle) (prop : SimVehicle → Option (ℤ × ℤ))
    (A : List ℕ) : List SimVehicle :=
  vs.map fun v =>
    match prop v with
    | some c => if v.id ∈ A then { v with pos := c } else v
    | none => v

/-- Modelled from the spec: retire Arrived vehicles (§4.5 step 5) — a
vehicle on its destination cell is removed from the world. -/
def retire (vs : List SimVehicle) : List SimVehicle :=
  vs.filter fun v => decide (v.pos ≠ v.dest)

/-- Modelled from the spec: spawning at one configured spawn cell (§4.5
step 5) — a vehicle with the next fresh id appears there if the
population is below the cap and the cell is unoccupied (the occupancy
map being the single source of truth for collision prevention, §3). -/
def spawnOne (cap : ℕ) (st : List SimVehicle × ℕ) (sp : (ℤ × ℤ) × (ℤ × ℤ)) :
    List SimVehicle × ℕ :=
  if st.1.length < cap ∧ ∀ w ∈ st.1, w.pos ≠ sp.1 then
    (st.1 ++ [{ id := st.2, pos := sp.1, dest := sp.2 }], st.2 + 1)
  else st

/-- Modelled from the spec: the spawn bookkeeping of a tick (§4.5 step
5) over all configured spawn cells. -/
def spawn (cfg : SimConfig) (vs : List SimVehicle) (nid : ℕ) :
    List SimVehicle × ℕ :=
  cfg.spawns.foldl (spawnOne cfg.cap) (vs, nid)

/-- Modelled from the spec: SimulationScheduler.Step (§4.5) — advance
the lights, collect the proposals read off the committed snapshot,
resolve conflicts, commit the accepted moves, retire arrivals and spawn.
The per-vehicle behavior (RoutePlanner, waiting, rerouting) is abstracted
as the propose parameter: any function of the committed snapshot, as the
proposal contract requires (§4.4). -/
def step (cfg : SimConfig) (propose : World → SimVehicle → Option (ℤ × ℤ))
    (w : World) : World :=
  { vehicles := (spawn cfg (retire (commitMoves w.vehicles (propose w)
      (accepted w.vehicles (propose w)))) w.nextId).1,
    nextId := (spawn cfg (retire (commitMoves w.vehicles (propose w)
      (accepted w.vehicles (propose w)))) w.nextId).2,
    lights := w.lights.map (lightStep cfg.durations) }

/-- Modelled from the spec: Initialize (§6) — reset the world to its
initial spawn state. -/
def initWorld (cfg : SimConfig) : World :=
  { vehicles := (spawn cfg [] 0).1,
    nextId := (spawn cfg [] 0).2,
    lights := cfg.lights }

/-- The world after Initialize() followed by n Step() calls. -/
def stepN (cfg : SimConfig) (propose : World → SimVehicle → Option (ℤ × ℤ)) :
    ℕ → World
  | 0 => initWorld cfg
  | n + 1 => step cfg propose (stepN cfg propose n)

/-- A second, independently written run of the same protocol: Initialize
followed by n Step() calls, realized as a fold over the tick indices. -/
def runFolded (cfg : SimConfig) (propose : World → SimVehicle → Option (ℤ × ℤ))
    (n : ℕ) : World :=
  (List.range n).foldl (fun w _ => step cfg propose w) (initWorld cfg)

/-- The positions snapshot a GetVehicles query exposes at a tick:
vehicle ids with their cells. -/
def positionsOf (w : World) : List (ℕ × (ℤ × ℤ)) :=
  w.vehicles.map fun v => (v.id, v.pos)

/-- The new position of a vehicle after the commit phase. -/
def newPos (prop : SimVehicle → Option (ℤ × ℤ)) (A : List ℕ)
    (v : SimVehicle) : ℤ × ℤ :=
  match prop v with
  | some c => if v.id ∈ A then c else v.pos
  | none => v.pos

/-- The well-formedness invariant of a vehicle list: distinct ids and
pairwise distinct cells. -/
def VehiclesOk (vs : List SimVehicle) : Prop :=
  (vs.map SimVehicle.id).Nodup ∧ vs.Pairwise fun a b => a.pos ≠ b.pos

/-- The world invariant: well-formed vehicles and a fresh next id. -/
def Inv (w : World) : Prop :=
  VehiclesOk w.vehicles ∧ ∀ v ∈ w.vehicles, v.id < w.nextId

end Engine

namespace Engine

theorem mem_acceptOne {vs : List SimVehicle} {prop : SimVehicle → Option (ℤ × ℤ)}
    {A : List ℕ} {x : ℕ} :
    x ∈ acceptOne vs prop A ↔
      ∃ v ∈ vs, v.id = x ∧ ∃ c, prop v = some c ∧ acceptOK vs prop A v c := by
  unfold acceptOne
  rw [List.mem_filterMap]
  constructor
  · rintro ⟨v, hv, hfv⟩
    rcases hc : prop v with _ | c
    · rw [hc] at hfv
      dsimp only at hfv
      exact absurd hfv (by simp)
    · rw [hc] at hfv
      dsimp only at hfv
      by_cases hok : acceptOK vs prop A v c
      · rw [if_pos hok] at hfv
        exact ⟨v, hv, Option.some.inj hfv, c, hc, hok⟩
      · rw [if_neg hok] at hfv
        exact absurd hfv (by simp)
  · rintro ⟨v, hv, rfl, c, hc, hok⟩
    refine ⟨v, hv, ?_⟩
    rw [hc]
    dsimp only
    rw [if_pos hok]

theorem acceptOK_mono {vs : List SimVehicle} {prop : SimVehicle → Option (ℤ × ℤ)}
    {A B : List ℕ} (hAB : A ⊆ B) {v : SimVehicle} {c : ℤ × ℤ}
    (h : acceptOK vs prop A v c) : acceptOK vs prop B v c :=
  ⟨h.1, fun w hw hwc => hAB (h.2 w hw hwc)⟩

theorem acceptOne_mono {vs : List SimVehicle} {prop : SimVehicle → Option (ℤ × ℤ)}
    {A B : List ℕ} (hAB : A ⊆ B) : acceptOne vs prop A ⊆ acceptOne vs prop B := by
  intro x hx
  rw [mem_acceptOne] at hx ⊢
  obtain ⟨v, hv, hvx, c, hc, hok⟩ := hx
  exact ⟨v, hv, hvx, c, hc, acceptOK_mono hAB hok⟩

theorem acceptIter_subset_succ (vs : List SimVehicle)
    (prop : SimVehicle → Option (ℤ × ℤ)) (k : ℕ) :
    acceptIter vs prop k ⊆ acceptIter vs prop (k + 1) := by
  induction k with
  | zero => intro x hx; exact absurd hx (by simp [acceptIter])
  | succ k ih => exact acceptOne_mono ih

end Engine

namespace Engine

theorem commitMoves_eq_map_newPos (vs : List SimVehicle)
    (prop : SimVehicle → Option (ℤ × ℤ)) (A : List ℕ) :
    commitMoves vs prop A =
      vs.map fun v => { v with pos := newPos prop A v } := by
  unfold commitMoves newPos
  refine List.map_eq_map_iff.mpr fun v _ => ?_
  rcases hc : prop v with _ | c
  · rfl
  · dsimp only
    by_cases hA : v.id ∈ A
    · rw [if_pos hA, if_pos hA]
    · rw [if_neg hA, if_neg hA]

theorem commitMoves_map_id (vs : List SimVehicle)
    (prop : SimVehicle → Option (ℤ × ℤ)) (A : List ℕ) :
    (commitMoves vs prop A).map SimVehicle.id = vs.map SimVehicle.id := by
  rw [commitMoves_eq_map_newPos, List.map_map]
  rfl

theorem commit_accepted_pairwise (vs : List SimVehicle)
    (prop : SimVehicle → Option (ℤ × ℤ))
    (hids : (vs.map SimVehicle.id).Nodup)
    (hpos : vs.Pairwise fun a b => a.pos ≠ b.pos) :
    (commitMoves vs prop (accepted vs prop)).Pairwise
      fun a b => a.pos ≠ b.pos := by
  have idInj := List.inj_on_of_nodup_map hids
  have hsub : acceptIter vs prop (vs.length) ⊆ accepted vs prop :=
    acceptIter_subset_succ vs prop vs.length
  have extract : ∀ u ∈ vs, u.id ∈ accepted vs prop →
      ∃ c, prop u = some c ∧
        acceptOK vs prop (acceptIter vs prop vs.length) u c := by
    intro u hu hmem
    have hm : u.id ∈ acceptOne vs prop (acceptIter vs prop vs.length) := hmem
    rw [mem_acceptOne] at hm
    obtain ⟨w, hw, hwid, c, hc, hok⟩ := hm
    obtain rfl : w = u := idInj hw hu hwid
    exact ⟨c, hc, hok⟩
  rw [commitMoves_eq_map_newPos, List.pairwise_map]
  have hidsP : vs.Pairwise fun a b => a.id ≠ b.id := List.pairwise_map.mp hids
  refine (hidsP.and hpos).imp_of_mem ?_
  intro a b ha hb hab heq
  dsimp only at heq
  unfold newPos at heq
  rcases hpa : prop a with _ | ca <;> rw [hpa] at heq <;>
    rcases hpb : prop b with _ | cb <;> rw [hpb] at heq <;> dsimp only at heq
  · exact hab.2 heq
  · -- a stays, b has a proposal
    by_cases hbA : b.id ∈ accepted vs prop
    · rw [if_pos hbA] at heq
      obtain ⟨cb', hcb', hok⟩ := extract b hb hbA
      rw [hpb] at hcb'
      obtain rfl : cb = cb' := Option.some.inj hcb'
      have haA : a.id ∈ accepted vs prop := hsub (hok.2 a ha heq)
      obtain ⟨ca, hca, _⟩ := extract a ha haA
      rw [hpa] at hca
      exact absurd hca (by simp)
    · rw [if_neg hbA] at heq
      exact hab.2 heq
  · -- b stays, a has a proposal
    by_cases haA : a.id ∈ accepted vs prop
    · rw [if_pos haA] at heq
      obtain ⟨ca', hca', hok⟩ := extract a ha haA
      rw [hpa] at hca'
      obtain rfl : ca = ca' := Option.some.inj hca'
      have hbA : b.id ∈ accepted vs prop := hsub (hok.2 b hb heq.symm)
      obtain ⟨cb, hcb, _⟩ := extract b hb hbA
      rw [hpb] at hcb
      exact absurd hcb (by simp)
    · rw [if_neg haA] at heq
      exact hab.2 heq
  · -- both have proposals
    by_cases haA : a.id ∈ accepted vs prop <;>
      by_cases hbA : b.id ∈ accepted vs prop
    · rw [if_pos haA, if_pos hbA] at heq
      obtain ⟨ca', hca', hokA⟩ := extract a ha haA
      rw [hpa] at hca'
      obtain rfl : ca = ca' := Option.some.inj hca'
      obtain ⟨cb', hcb', hokB⟩ := extract b hb hbA
      rw [hpb] at hcb'
      obtain rfl : cb = cb' := Option.some.inj hcb'
      subst heq
      have h1 : a.id ≤ b.id := hokA.1 b hb hpb
      have h2 : b.id ≤ a.id := hokB.1 a ha hpa
      exact hab.1 (le_antisymm h1 h2)
    · rw [if_pos haA, if_neg hbA] at heq
      obtain ⟨ca', hca', hokA⟩ := extract a ha haA
      rw [hpa] at hca'
      obtain rfl : ca = ca' := Option.some.inj hca'
      exact hbA (hsub (hokA.2 b hb heq.symm))
    · rw [if_neg haA, if_pos hbA] at heq
      obtain ⟨cb', hcb', hokB⟩ := extract b hb hbA
      rw [hpb] at hcb'
      obtain rfl : cb = cb' := Option.some.inj hcb'
      exact haA (hsub (hokB.2 a ha heq))
    · rw [if_neg haA, if_neg hbA] at heq
      exact hab.2 heq

end Engine

namespace Engine

theorem VehiclesOk_commit (vs : List SimVehicle)
    (prop : SimVehicle → Option (ℤ × ℤ)) (h : VehiclesOk vs) :
    VehiclesOk (commitMoves vs prop (accepted vs prop)) :=
  ⟨(commitMoves_map_id vs prop (accepted vs prop)).symm ▸ h.1,
   commit_accepted_pairwise vs prop h.1 h.2⟩

theorem retire_sublist (vs : List SimVehicle) : (retire vs).Sublist vs :=
  List.filter_sublist vs

theorem VehiclesOk_retire (vs : List SimVehicle) (h : VehiclesOk vs) :
    VehiclesOk (retire vs) :=
  ⟨List.Nodup.sublist ((retire_sublist vs).map SimVehicle.id) h.1,
   List.Pairwise.sublist (retire_sublist vs) h.2⟩

theorem mem_retire {vs : List SimVehicle} {v : SimVehicle}
    (h : v ∈ retire vs) : v ∈ vs :=
  (retire_sublist vs).subset h

theorem mem_commitMoves_id {vs : List SimVehicle}
    {prop : SimVehicle → Option (ℤ × ℤ)} {A : List ℕ} {v : SimVehicle}
    (h : v ∈ commitMoves vs prop A) : ∃ w ∈ vs, w.id = v.id := by
  have : v.id ∈ (commitMoves vs prop A).map SimVehicle.id :=
    List.mem_map_of_mem SimVehicle.id h
  rw [commitMoves_map_id] at this
  obtain ⟨w, hw, hwid⟩ := List.mem_map.mp this
  exact ⟨w, hw, hwid⟩

theorem spawnOne_ok (cap : ℕ) (st : List SimVehicle × ℕ)
    (sp : (ℤ × ℤ) × (ℤ × ℤ)) (h : VehiclesOk st.1)
    (hbound : ∀ v ∈ st.1, v.id < st.2) :
    VehiclesOk (spawnOne cap st sp).1 ∧
      ∀ v ∈ (spawnOne cap st sp).1, v.id < (spawnOne cap st sp).2 := by
  unfold spawnOne
  by_cases hc : st.1.length < cap ∧ ∀ w ∈ st.1, w.pos ≠ sp.1
  · rw [if_pos hc]
    refine ⟨⟨?_, ?_⟩, ?_⟩
    · rw [List.map_append, List.nodup_append]
      refine ⟨h.1, by simp, ?_⟩
      intro x hx
      simp only [List.map_cons, List.map_nil, List.mem_singleton]
      obtain ⟨v, hv, rfl⟩ := List.mem_map.mp hx
      exact fun he => absurd (he ▸ hbound v hv) (lt_irrefl _)
    · rw [List.pairwise_append]
      refine ⟨h.2, by simp, ?_⟩
      intro a ha b hb
      rw [List.mem_singleton] at hb
      subst hb
      exact hc.2 a ha
    · intro v hv
      rcases List.mem_append.mp hv with hv | hv
      · exact Nat.lt_succ_of_lt (hbound v hv)
      · rw [List.mem_singleton] at hv
        subst hv
        exact Nat.lt_succ_self _
  · rw [if_neg hc]
    exact ⟨h, hbound⟩

theorem spawnFold_ok (cap : ℕ) (sps : List ((ℤ × ℤ) × (ℤ × ℤ))) :
    ∀ (st : List SimVehicle × ℕ), VehiclesOk st.1 →
      (∀ v ∈ st.1, v.id < st.2) →
      VehiclesOk (sps.foldl (spawnOne cap) st).1 ∧
        ∀ v ∈ (sps.foldl (spawnOne cap) st).1,
          v.id < (sps.foldl (spawnOne cap) st).2 := by
  induction sps with
  | nil => intro st h hb; exact ⟨h, hb⟩
  | cons sp sps ih =>
    intro st h hb
    have hstep := spawnOne_ok cap st sp h hb
    exact ih (spawnOne cap st sp) hstep.1 hstep.2

theorem Inv_initWorld (cfg : SimConfig) : Inv (initWorld cfg) := by
  have h := spawnFold_ok cfg.cap cfg.spawns ([], 0)
    ⟨List.nodup_nil, List.Pairwise.nil⟩ (by intro v hv; cases hv)
  exact ⟨h.1, h.2⟩

theorem Inv_step (cfg : SimConfig)
    (propose : World → SimVehicle → Option (ℤ × ℤ)) (w : World)
    (h : Inv w) : Inv (step cfg propose w) := by
  have hcommit := VehiclesOk_commit w.vehicles (propose w) h.1
  have hkept := VehiclesOk_retire _ hcommit
  have hkbound : ∀ v ∈ retire (commitMoves w.vehicles (propose w)
      (accepted w.vehicles (propose w))), v.id < w.nextId := by
    intro v hv
    obtain ⟨u, hu, huid⟩ := mem_commitMoves_id (mem_retire hv)
    exact huid ▸ h.2 u hu
  have hs := spawnFold_ok cfg.cap cfg.spawns (_, w.nextId) hkept hkbound
  exact ⟨hs.1, hs.2⟩

theorem Inv_stepN (cfg : SimConfig)
    (propose : World → SimVehicle → Option (ℤ × ℤ)) (n : ℕ) :
    Inv (stepN cfg propose n) := by
  induction n with
  | zero => exact Inv_initWorld cfg
  | succ n ih => exact Inv_step cfg propose _ ih

theorem pairwise_ne_filter_length {vs : List SimVehicle}
    (h : vs.Pairwise fun a b => a.pos ≠ b.pos) (c : ℤ × ℤ) :
    (vs.filter fun v => decide (v.pos = c)).length ≤ 1 := by
  induction vs with
  | nil => simp
  | cons a l ih =>
    rw [List.pairwise_cons] at h
    by_cases hac : a.pos = c
    · rw [List.filter_cons_of_pos (by simpa using hac)]
      have hnil : l.filter (fun v => decide (v.pos = c)) = [] := by
        rw [List.filter_eq_nil_iff]
        intro b hb
        simp only [decide_eq_true_eq]
        exact fun hbc => h.1 b hb (hac ▸ hbc ▸ rfl)
      rw [hnil]
      simp
    · rw [List.filter_cons_of_neg (by simpa using hac)]
      exact ih h.2

theorem stepN_eq_runFolded (cfg : SimConfig)
    (propose : World → SimVehicle → Option (ℤ × ℤ)) (n : ℕ) :
    stepN cfg propose n = runFolded cfg propose n := by
  induction n with
  | zero => rfl
  | succ n ih =>
    unfold runFolded
    rw [List.range_succ, List.foldl_append]
    exact congrArg (step cfg propose) ih

end Engine

namespace ClientV1

theorem parseMap_length (m : List String) (d : Char → Option String) :
    (parseMap m d).length = m.length := by
  simp [parseMap]

theorem parseMap_row (m : List String) (d : Char → Option String) (y : ℕ)
    (line : String) (hy : m[y]? = some line) :
    (parseMap m d)[y]? = some (line.toList.enum.map fun xc =>
      { x := xc.1, y := y, char := xc.2, type := d xc.2 }) := by
  simp [parseMap, List.getElem?_map, List.getElem?_enum, hy]

theorem parseMap_cell (m : List String) (d : Char → Option String)
    (y x : ℕ) (line : String) (c : Char) (hy : m[y]? = some line)
    (hx : line.toList[x]? = some c) :
    ∃ row : List Cell, (parseMap m d)[y]? = some row ∧
      row.length = line.length ∧
      row[x]? = some { x := x, y := y, char := c, type := d c } := by
  refine ⟨_, parseMap_row m d y line hy, by simp, ?_⟩
  simp [List.getElem?_map, List.getElem?_enum, hx]
  exact ⟨c, hx, rfl, rfl⟩

theorem parseMap_cell_free (m : List String) (d : Char → Option String)
    (y : ℕ) (line : String) (hy : m[y]? = some line) :
    ∃ row : List Cell, (parseMap m d)[y]? = some row ∧
      row.length = line.length ∧
      ∀ (x : ℕ) (c : Char), line.toList[x]? = some c →
        row[x]? = some { x := x, y := y, char := c, type := d c } := by
  refine ⟨_, parseMap_row m d y line hy, by simp, ?_⟩
  intro x c hx
  simp [List.getElem?_map, List.getElem?_enum, hx]
  exact ⟨c, hx, rfl, rfl⟩

end ClientV1

namespace ClientV2

theorem getStreetDirection_cases (agents : List Agent) (x z : ℚ) :
    getStreetDirectionAtPosition agents x z = "horizontal" ∨
    getStreetDirectionAtPosition agents x z = "vertical" := by
  unfold getStreetDirectionAtPosition
  split
  · split_ifs
    · exact Or.inl rfl
    · exact Or.inr rfl
  · exact Or.inr rfl

theorem mkTrafficLight_fields (agents : List Agent) (t : TLData) :
    (mkTrafficLight agents t).id = t.id ∧
    (mkTrafficLight agents t).state = t.state ∧
    ((mkTrafficLight agents t).position = (t.x + 2/5, t.y, t.z) ∨
     (mkTrafficLight agents t).position = (t.x, t.y, t.z + 2/5)) := by
  unfold mkTrafficLight
  rcases getStreetDirection_cases agents t.x t.z with h | h
  · rw [if_pos h]
    exact ⟨rfl, rfl, Or.inr rfl⟩
  · by_cases hh : getStreetDirectionAtPosition agents t.x t.z = "horizontal"
    · rw [if_pos hh]
      exact ⟨rfl, rfl, Or.inr rfl⟩
    · rw [if_neg hh, if_pos h]
      exact ⟨rfl, rfl, Or.inl rfl⟩

end ClientV2

/-- C1: after Initialize() and any finite sequence of Step() calls,
every cell is occupied by at most one vehicle at the committed tick
boundary, and no two vehicles occupy the same cell.  The engine is
modelled from the spec (the Mesa server is not in the repository); the
theorem holds for every configuration and every proposal policy. -/
theorem C1_no_vehicle_overlap (cfg : Engine.SimConfig)
    (propose : Engine.World → Engine.SimVehicle → Option (ℤ × ℤ)) (n : ℕ) :
    (∀ c : ℤ × ℤ,
      ((Engine.stepN cfg propose n).vehicles.filter
        fun v => decide (v.pos = c)).length ≤ 1) ∧
    (Engine.stepN cfg propose n).vehicles.Pairwise
      fun a b => a.pos ≠ b.pos := by
  have h := (Engine.Inv_stepN cfg propose n).1.2
  exact ⟨fun c => Engine.pairwise_ne_filter_length h c, h⟩

/-- C2: two independent runs that Initialize() the same map and then
perform the same n Step() calls produce identical vehicle positions at
every tick n.  stepN and runFolded are two independently written
realizations of the Initialize-then-n-Steps protocol over the
spec-modelled engine, and their GetVehicles position snapshots agree for
every configuration, proposal policy and tick count. -/
theorem C2_determinism (cfg : Engine.SimConfig)
    (propose : Engine.World → Engine.SimVehicle → Option (ℤ × ℤ)) (n : ℕ) :
    Engine.positionsOf (Engine.stepN cfg propose n) =
      Engine.positionsOf (Engine.runFolded cfg propose n) := by
  rw [Engine.stepN_eq_runFolded]

/-- C3 counterexample: on the map text with rows "ab" and "c" — rows of
inconsistent width — and a dictionary recognizing no symbol at all, the
construction pipeline does not fail: it returns a fully populated grid,
with the unrecognized symbols mapped to null types.  This refutes the
claim that no such malformed input yields a grid. -/
theorem C3_counterexample :
    ("ab" : String).length ≠ ("c" : String).length ∧
    (fun _ : Char => (none : Option String)) 'a' = none ∧
    ClientV1.buildGrid (some "ab\nc") (some fun _ => none) =
      Except.ok [[{ x := 0, y := 0, char := 'a', type := none },
                  { x := 1, y := 0, char := 'b', type := none }],
                 [{ x := 0, y := 1, char := 'c', type := none }]] :=
  ⟨by decide, rfl, rfl⟩

/-- C3 amended: map construction never fails on malformed map content.
Whenever both fetches succeed, buildGrid returns a grid for every map
text: the grid has one row per line and each row has exactly its own
line's width, so rows of inconsistent width yield a ragged grid without
error, and every cell carries the dictionary entry of its character —
null when the symbol is unrecognized.  Only a failed fetch of the map or
of the dictionary produces an error, with the corresponding descriptive
message. -/
theorem C3_amended_total_parse (mapText : String) (d : Char → Option String) :
    (∃ g, ClientV1.buildGrid (some mapText) (some d) = Except.ok g ∧
      g.length = (ClientV1.splitLines (ClientV1.jsTrim mapText)).length ∧
      ∀ (y : ℕ) (line : String),
        (ClientV1.splitLines (ClientV1.jsTrim mapText))[y]? = some line →
          ∃ row, g[y]? = some row ∧ row.length = line.length ∧
            ∀ (x : ℕ) (c : Char), line.toList[x]? = some c →
              row[x]? = some { x := x, y := y, char := c, type := d c }) ∧
    (∀ dictFetch, ClientV1.buildGrid none dictFetch =
      Except.error "No se pudo cargar el archivo del mapa") ∧
    ClientV1.buildGrid (some mapText) none =
      Except.error "No se pudo cargar el diccionario del mapa" := by
  refine ⟨⟨ClientV1.parseMap (ClientV1.splitLines (ClientV1.jsTrim mapText)) d,
    rfl, ClientV1.parseMap_length _ d, ?_⟩, fun _ => rfl, rfl⟩
  intro y line hy
  exact ClientV1.parseMap_cell_free (ClientV1.splitLines
    (ClientV1.jsTrim mapText)) d y line hy

/-- Witness for the amended C3 theorem: a map whose two rows have
different widths and whose symbols are all recognized still parses into
a ragged two-row grid, and both fetch failures yield their descriptive
errors. -/
theorem C3_amended_total_parse_witness :
    ("ab" : String).length ≠ ("c" : String).length ∧
    (ClientV1.splitLines (ClientV1.jsTrim "ab\nc"))[0]? = some "ab" ∧
    (ClientV1.splitLines (ClientV1.jsTrim "ab\nc"))[1]? = some "c" ∧
    ∃ g, ClientV1.buildGrid (some "ab\nc") (some fun _ => some "Road") =
        Except.ok g ∧ g.length = 2 ∧
      ∃ row0 row1, g[0]? = some row0 ∧ row0.length = 2 ∧
        g[1]? = some row1 ∧ row1.length = 1 ∧
        ClientV1.buildGrid none (some fun _ => some "Road") =
          Except.error "No se pudo cargar el archivo del mapa" ∧
        ClientV1.buildGrid (some "ab\nc") none =
          Except.error "No se pudo cargar el diccionario del mapa" := by
  obtain ⟨⟨g, hok, hlen, hrows⟩, herr1, herr2⟩ :=
    C3_amended_total_parse "ab\nc" fun _ => some "Road"
  obtain ⟨row0, h0, hl0, _⟩ := hrows 0 "ab" rfl
  obtain ⟨row1, h1, hl1, _⟩ := hrows 1 "c" rfl
  exact ⟨by decide, rfl, rfl, g, hok, hlen, row0, row1, h0, hl0, h1, hl1,
    herr1 (some fun _ => some "Road"), herr2⟩

/-- C4 counterexample: two /getAgents entries that agree on id, x, z and
rotation but differ in y produce different rendered agents, so getAgents
does not build its agents from exactly the fields id, x, z and rotation:
the y field is read as well. -/
theorem C4_counterexample :
    (ClientV1.AgentData.mk 1 2 3 4 5).id = (ClientV1.AgentData.mk 1 2 7 4 5).id ∧
    (ClientV1.AgentData.mk 1 2 3 4 5).x = (ClientV1.AgentData.mk 1 2 7 4 5).x ∧
    (ClientV1.AgentData.mk 1 2 3 4 5).z = (ClientV1.AgentData.mk 1 2 7 4 5).z ∧
    (ClientV1.AgentData.mk 1 2 3 4 5).rotation =
      (ClientV1.AgentData.mk 1 2 7 4 5).rotation ∧
    ClientV1.getAgents [ClientV1.AgentData.mk 1 2 3 4 5] ≠
      ClientV1.getAgents [ClientV1.AgentData.mk 1 2 7 4 5] := by
  refine ⟨rfl, rfl, rfl, rfl, ?_⟩
  decide

/-- C4 amended: the per-entry fields GetVehicles carries and the client
consumes are id, x, y, z and rotation — the y coordinate in addition to
the four claimed fields.  The first client builds each rendered agent
from exactly those fields of the data.positions entries; in the second
client, the data.agents entries additionally carry type, direction and
state, and a Car entry is built from id, type, x, y, z, direction and
state. -/
theorem C4_amended_fields (l : List ClientV1.AgentData) (i : ℕ)
    (a : ClientV1.AgentData) (ha : l[i]? = some a) :
    (ClientV1.getAgents l)[i]? =
      some { id := a.id, position := (a.x, a.y, a.z),
             rotation := a.rotation } ∧
    ∀ b : ClientV2.AgentData, b.type = "Car" →
      ClientV2.mkAgent b =
        some { id := b.id, type := b.type, position := (b.x, b.y, b.z),
               rotation := ClientV2.carRotation b.direction,
               model := .car, scale := ClientV2.carScale,
               state := b.state, direction := b.direction } := by
  constructor
  · simp [ClientV1.getAgents, List.getElem?_map, ha]
  · intro b hb
    unfold ClientV2.mkAgent
    rw [if_pos hb]

/-- Witness for the amended C4 theorem on a concrete response. -/
theorem C4_amended_fields_witness :
    ([ClientV1.AgentData.mk 1 2 3 4 5] : List ClientV1.AgentData)[0]? =
      some (ClientV1.AgentData.mk 1 2 3 4 5) ∧
    ((ClientV1.getAgents [ClientV1.AgentData.mk 1 2 3 4 5])[0]? =
      some { id := 1, position := (2, 3, 4), rotation := 5 } ∧
    ∀ b : ClientV2.AgentData, b.type = "Car" →
      ClientV2.mkAgent b =
        some { id := b.id, type := b.type, position := (b.x, b.y, b.z),
               rotation := ClientV2.carRotation b.direction,
               model := .car, scale := ClientV2.carScale,
               state := b.state, direction := b.direction }) :=
  ⟨rfl, C4_amended_fields [ClientV1.AgentData.mk 1 2 3 4 5] 0
    (ClientV1.AgentData.mk 1 2 3 4 5) rfl⟩

/-- C5 counterexample: two /getTrafficLights entries that agree on id, x,
z and state (the phase field) but differ in y produce different rendered
traffic lights, so getTrafficLights does not build its lights from
exactly the fields id, x, z and phase: the y field is read as well. -/
theorem C5_counterexample :
    (ClientV1.TLData.mk 1 2 3 4 "red").id =
      (ClientV1.TLData.mk 1 2 9 4 "red").id ∧
    (ClientV1.TLData.mk 1 2 3 4 "red").x =
      (ClientV1.TLData.mk 1 2 9 4 "red").x ∧
    (ClientV1.TLData.mk 1 2 3 4 "red").z =
      (ClientV1.TLData.mk 1 2 9 4 "red").z ∧
    (ClientV1.TLData.mk 1 2 3 4 "red").state =
      (ClientV1.TLData.mk 1 2 9 4 "red").state ∧
    ClientV1.getTrafficLights [ClientV1.TLData.mk 1 2 3 4 "red"] ≠
      ClientV1.getTrafficLights [ClientV1.TLData.mk 1 2 9 4 "red"] := by
  refine ⟨rfl, rfl, rfl, rfl, ?_⟩
  decide

/-- C5 amended: the per-entry fields the GetTrafficLights response
carries and the client consumes are id, x, y, z and state — the y
coordinate in addition to the four claimed fields, with the phase in the
field named state.  The first client builds each rendered light's
identity, position and phase from exactly those fields of the
data.positions entries; the second client builds identity and phase from
id and state but offsets the position read from (x, y, z) by 0.4 in x or
in z, according to the street direction it derives from the previously
fetched agents list. -/
theorem C5_amended_fields (l : List ClientV1.TLData) (i : ℕ)
    (t : ClientV1.TLData) (agents : List ClientV2.Agent)
    (l2 : List ClientV2.TLData) (i2 : ℕ) (t2 : ClientV2.TLData)
    (ht : l[i]? = some t) (ht2 : l2[i2]? = some t2) :
    (ClientV1.getTrafficLights l)[i]? =
      some { id := t.id, position := (t.x, t.y, t.z), state := t.state } ∧
    ∃ tl, (ClientV2.getTrafficLights agents l2)[i2]? = some tl ∧
      tl.id = t2.id ∧ tl.state = t2.state ∧
      (tl.position = (t2.x + 2/5, t2.y, t2.z) ∨
       tl.position = (t2.x, t2.y, t2.z + 2/5)) := by
  constructor
  · simp [ClientV1.getTrafficLights, List.getElem?_map, ht]
  · refine ⟨ClientV2.mkTrafficLight agents t2, ?_,
      ClientV2.mkTrafficLight_fields agents t2⟩
    simp [ClientV2.getTrafficLights, List.getElem?_map, ht2]

/-- Witness for the amended C5 theorem on concrete responses for both
client variants. -/
theorem C5_amended_fields_witness :
    ([ClientV1.TLData.mk 7 1 2 3 "green"] : List ClientV1.TLData)[0]? =
      some (ClientV1.TLData.mk 7 1 2 3 "green") ∧
    ([ClientV2.TLData.mk 8 4 5 6 "red"] : List ClientV2.TLData)[0]? =
      some (ClientV2.TLData.mk 8 4 5 6 "red") ∧
    ((ClientV1.getTrafficLights [ClientV1.TLData.mk 7 1 2 3 "green"])[0]? =
      some { id := 7, position := (1, 2, 3), state := "green" } ∧
     ∃ tl,
       (ClientV2.getTrafficLights []
         [ClientV2.TLData.mk 8 4 5 6 "red"])[0]? = some tl ∧
       tl.id = 8 ∧ tl.state = "red" ∧
       (tl.position = (4 + 2/5, 5, 6) ∨ tl.position = (4, 5, 6 + 2/5))) :=
  ⟨rfl, rfl, C5_amended_fields [ClientV1.TLData.mk 7 1 2 3 "green"] 0
    (ClientV1.TLData.mk 7 1 2 3 "green") [] [ClientV2.TLData.mk 8 4 5 6 "red"]
    0 (ClientV2.TLData.mk 8 4 5 6 "red") rfl rfl⟩

/-- C6: for every list of map lines and every dictionary, parseMap
returns a grid with exactly one row per line, row y having one cell per
character of line y, and the cell at column x of row y carrying the
coordinates (x, y), the character itself, and the dictionary entry for
that character (null when absent). -/
theorem C6_parseMap_dense_grid (m : List String) (d : Char → Option String) :
    (ClientV1.parseMap m d).length = m.length ∧
    ∀ (y : ℕ) (line : String), m[y]? = some line →
      ∃ row : List ClientV1.Cell,
        (ClientV1.parseMap m d)[y]? = some row ∧
        row.length = line.length ∧
        ∀ (x : ℕ) (c : Char), line.toList[x]? = some c →
          row[x]? = some { x := x, y := y, char := c, type := d c } := by
  refine ⟨ClientV1.parseMap_length m d, ?_⟩
  intro y line hy
  refine ⟨_, ClientV1.parseMap_row m d y line hy, by simp, ?_⟩
  intro x c hx
  simp [List.getElem?_map, List.getElem?_enum, hx]
  exact ⟨c, hx, rfl, rfl⟩

/-- Witness for the C6 theorem on a concrete map and dictionary. -/
theorem C6_parseMap_dense_grid_witness :
    (["#>", "D"] : List String)[0]? = some "#>" ∧
    ("#>" : String).toList[1]? = some '>' ∧
    (ClientV1.parseMap ["#>", "D"]
      (fun c => if c = '#' then some "Obstacle" else none)).length = 2 ∧
    ∃ row : List ClientV1.Cell,
      (ClientV1.parseMap ["#>", "D"]
        (fun c => if c = '#' then some "Obstacle" else none))[0]? = some row ∧
      row.length = ("#>" : String).length ∧
      row[1]? = some { x := 1, y := 0, char := '>', type := none } := by
  have h := C6_parseMap_dense_grid ["#>", "D"]
    (fun c => if c = '#' then some "Obstacle" else none)
  obtain ⟨row, hrow, hlen, hcell⟩ := h.2 0 "#>" rfl
  exact ⟨rfl, rfl, h.1, row, hrow, hlen, hcell 1 '>' rfl⟩


/-- C7: the rendering client requests a simulation update exactly when
its frame counter is a positive multiple of 60 — after m rendered frames
the counter equals m, and an update was requested at counter value k if
and only if k is a positive multiple of 60 not exceeding m. -/
theorem C7_update_every_60_frames (m : ℕ) :
    (runFrames m).1 = m ∧
    ∀ k : ℕ, k ∈ (runFrames m).2 ↔ 0 < k ∧ k ≤ m ∧ 60 ∣ k := by
  induction m with
  | zero =>
    refine ⟨rfl, fun k => ?_⟩
    constructor
    · intro h
      exact absurd h (by simp [runFrames])
    · intro h
      omega
  | succ m ih =>
    have hfst : (runFrames (m + 1)).1 = m + 1 := by
      show (drawSceneFrame (runFrames m).1).1 = m + 1
      rw [ih.1]
      rfl
    have hsnd : (runFrames (m + 1)).2 =
        if (m + 1) % 60 == 0 then (runFrames m).2 ++ [m + 1]
        else (runFrames m).2 := by
      show (if (drawSceneFrame (runFrames m).1).2 then
          (runFrames m).2 ++ [(drawSceneFrame (runFrames m).1).1]
        else (runFrames m).2) = _
      rw [ih.1]
      rfl
    refine ⟨hfst, fun k => ?_⟩
    rw [hsnd]
    by_cases hdvd : (m + 1) % 60 = 0
    · rw [if_pos (by simpa using hdvd)]
      rw [List.mem_append, List.mem_singleton, ih.2 k]
      constructor
      · rintro (⟨hk0, hkm, hdk⟩ | rfl)
        · exact ⟨hk0, Nat.le_succ_of_le hkm, hdk⟩
        · exact ⟨Nat.succ_pos m, le_refl _, Nat.dvd_of_mod_eq_zero hdvd⟩
      · rintro ⟨hk0, hkm, hdk⟩
        by_cases hk : k = m + 1
        · right
          exact hk
        · left
          exact ⟨hk0, by omega, hdk⟩
    · rw [if_neg (by simpa using hdvd)]
      rw [ih.2 k]
      constructor
      · rintro ⟨hk0, hkm, hdk⟩
        exact ⟨hk0, by omega, hdk⟩
      · rintro ⟨hk0, hkm, hdk⟩
        refine ⟨hk0, ?_, hdk⟩
        omega

/-- C8: getRotationForDirection returns degToRad(0), degToRad(90),
degToRad(180) and degToRad(270) on the four direction symbols (with 'v'
and 'V' both mapping to 270 degrees), and 0 on every other character: it
is total and never fails on an unrecognized direction symbol.  The value
of Math.PI is abstracted as pi. -/
theorem C8_rotation_switch (pi : ℚ) :
    ClientV1.getRotationForDirection pi '>' = ClientV1.degToRad pi 0 ∧
    ClientV1.getRotationForDirection pi '^' = ClientV1.degToRad pi 90 ∧
    ClientV1.getRotationForDirection pi '<' = ClientV1.degToRad pi 180 ∧
    ClientV1.getRotationForDirection pi 'v' = ClientV1.degToRad pi 270 ∧
    ClientV1.getRotationForDirection pi 'V' = ClientV1.degToRad pi 270 ∧
    ∀ c : Char, c ∉ (['>', '^', '<', 'v', 'V'] : List Char) →
      ClientV1.getRotationForDirection pi c = 0 := by
  refine ⟨rfl, rfl, rfl, rfl, rfl, ?_⟩
  intro c hc
  unfold ClientV1.getRotationForDirection
  split <;> simp_all

/-- Witness for the C8 theorem at the unrecognized character 'x'. -/
theorem C8_rotation_switch_witness :
    ('x' ∉ (['>', '^', '<', 'v', 'V'] : List Char)) ∧
    ClientV1.getRotationForDirection 3 'x' = 0 :=
  ⟨by decide, (C8_rotation_switch 3).2.2.2.2.2 'x' (by decide)⟩

/-- C9: getAgents maps every response entry whose type is not Car,
Obstacle, Road or Destination to null and filters it out: the rendered
agents list only contains entries of the four known types, and an
unknown type is dropped rather than rendered or raised. -/
theorem C9_unknown_types_dropped (l : List ClientV2.AgentData) :
    (∀ ag ∈ ClientV2.getAgents l,
      ag.type ∈ (["Car", "Obstacle", "Road", "Destination"] : List String)) ∧
    ∀ a ∈ l,
      a.type ∉ (["Car", "Obstacle", "Road", "Destination"] : List String) →
        ClientV2.mkAgent a = none := by
  constructor
  · intro ag hag
    unfold ClientV2.getAgents at hag
    rw [List.mem_filterMap] at hag
    obtain ⟨oa, hoa, hid⟩ := hag
    rw [List.mem_map] at hoa
    obtain ⟨a, _, rfl⟩ := hoa
    have hma : ClientV2.mkAgent a = some ag := hid
    unfold ClientV2.mkAgent at hma
    split_ifs at hma with h1 h2 h3 h4
    · obtain rfl := Option.some.inj hma
      rw [show (ClientV2.Agent.mk a.id a.type _ _ _ _ _ _).type = a.type
        from rfl, h1]
      simp
    · obtain rfl := Option.some.inj hma
      rw [show (ClientV2.Agent.mk a.id a.type _ _ _ _ _ _).type = a.type
        from rfl, h2]
      simp
    · obtain rfl := Option.some.inj hma
      rw [show (ClientV2.Agent.mk a.id a.type _ _ _ _ _ _).type = a.type
        from rfl, h3]
      simp
    · obtain rfl := Option.some.inj hma
      rw [show (ClientV2.Agent.mk a.id a.type _ _ _ _ _ _).type = a.type
        from rfl, h4]
      simp
  · intro a _ hnot
    unfold ClientV2.mkAgent
    split_ifs with h1 h2 h3 h4
    · exact absurd (by rw [h1]; simp) hnot
    · exact absurd (by rw [h2]; simp) hnot
    · exact absurd (by rw [h3]; simp) hnot
    · exact absurd (by rw [h4]; simp) hnot
    · rfl

/-- Witness for the C9 theorem: an entry of the unknown type Ghost is
mapped to null and the rendered list it yields is empty. -/
theorem C9_unknown_types_dropped_witness :
    (ClientV2.AgentData.mk 0 "Ghost" 0 0 0 none none) ∈
      [ClientV2.AgentData.mk 0 "Ghost" 0 0 0 none none] ∧
    ("Ghost" : String) ∉
      (["Car", "Obstacle", "Road", "Destination"] : List String) ∧
    ClientV2.mkAgent (ClientV2.AgentData.mk 0 "Ghost" 0 0 0 none none) =
      none :=
  ⟨by simp, by decide,
   (C9_unknown_types_dropped [ClientV2.AgentData.mk 0 "Ghost" 0 0 0 none none]).2
     (ClientV2.AgentData.mk 0 "Ghost" 0 0 0 none none) (by simp) (by decide)⟩

/-- C10: drawTrafficLight chooses its color solely from the state field
— green, yellow and red map to the pure colors and every other state to
the grey default — and it always draws exactly two cubes, the second at
the base world matrix translated by [0, 0.5, 0] (half a unit upward in
the light's local frame). -/
theorem C10_drawTrafficLight_contract (base : ClientV2.M4) :
    (ClientV2.drawTrafficLight "green" base).color = [0, 1, 0, 1] ∧
    (ClientV2.drawTrafficLight "yellow" base).color = [1, 1, 0, 1] ∧
    (ClientV2.drawTrafficLight "red" base).color = [1, 0, 0, 1] ∧
    (∀ s : String, s ∉ (["green", "yellow", "red"] : List String) →
      (ClientV2.drawTrafficLight s base).color = [4/5, 4/5, 4/5, 1]) ∧
    ∀ s : String,
      (ClientV2.drawTrafficLight s base).matrices =
        [base, ClientV2.m4translate base (0, 1/2, 0)] ∧
      (ClientV2.drawTrafficLight s base).matrices.length = 2 := by
  refine ⟨rfl, rfl, rfl, ?_, fun s => ⟨rfl, rfl⟩⟩
  intro s hs
  unfold ClientV2.drawTrafficLight
  split_ifs with h1 h2 h3
  · exact absurd (by rw [h1]; simp) hs
  · exact absurd (by rw [h2]; simp) hs
  · exact absurd (by rw [h3]; simp) hs
  · rfl

/-- Witness for the C10 theorem at the unknown state blue and the
identity base matrix. -/
theorem C10_drawTrafficLight_contract_witness :
    ("blue" : String) ∉ (["green", "yellow", "red"] : List String) ∧
    (ClientV2.drawTrafficLight "blue" 1).color = [4/5, 4/5, 4/5, 1] :=
  ⟨by decide, (C10_drawTrafficLight_contract 1).2.2.2.1 "blue" (by decide)⟩
